import Mathlib

/-!
Shallow embedding of the AgroForest prototype (`Plant_Class.py`): a 2D
tile platform onto which `PlatformObject`s are placed.  Python integers
are `Int`, the grid is a list of rows (each row a list of cells), a cell
is `none` (Python `0`) or `some obj` (an object reference), and the
object registry dict is an association list keyed by the object id.
Python raising `ValueError` in a constructor is `Except String`;
`place_object` returns, besides the Python `bool`, the failure branch
taken (each branch prints a distinct message in the source) and the
post-call platform and object (Python mutates them through references).
-/

/-- Mirrors `PlatformObject.__init__`'s fields: id, bounding-box
dimensions in tiles, coordinates (`-1` until placed) and shape mask. -/
structure PlatformObject where
  id : String
  width_tiles : Int
  length_tiles : Int
  x_coord : Int
  y_coord : Int
  shape_mask : List (List Int)
deriving Repr, DecidableEq

/-- `PlatformObject.__init__(obj_id, width_tiles, length_tiles, shape_mask)`:
raises on falsy (empty) id and on a supplied mask whose dimensions
mismatch; otherwise builds the object with sentinel coordinates `-1` and,
when no mask is supplied, the default solid-rectangle mask
`[[1]*width_tiles for _ in range(length_tiles)]` (Python `range`/list
repetition clamp negative counts to zero, hence `Int.toNat`). -/
def PlatformObject.init (obj_id : String) (width_tiles length_tiles : Int)
    (shape_mask : Option (List (List Int))) : Except String PlatformObject :=
  if obj_id = "" then
    Except.error "Object must have a unique ID."
  else
    match shape_mask with
    | none =>
        Except.ok
          { id := obj_id, width_tiles := width_tiles, length_tiles := length_tiles,
            x_coord := -1, y_coord := -1,
            shape_mask := List.replicate length_tiles.toNat (List.replicate width_tiles.toNat 1) }
    | some m =>
        if (m.length : Int) ≠ length_tiles ∨ m.any (fun row => (row.length : Int) ≠ width_tiles) then
          Except.error "Shape mask dimensions must match width_tiles and length_tiles."
        else
          Except.ok
            { id := obj_id, width_tiles := width_tiles, length_tiles := length_tiles,
              x_coord := -1, y_coord := -1, shape_mask := m }

/-- A grid cell: Python stores `0` (empty) or the object instance. -/
abbrev Cell := Option PlatformObject

/-- The 2D grid, a list of `length` rows of `width` cells, indexed
`grid[y][x]` as in the source. -/
abbrev Grid := List (List Cell)

/-- Read `grid[y][x]` (used by the source only at in-bounds indices). -/
def getCell (g : Grid) (x y : Int) : Cell :=
  (g.getD y.toNat []).getD x.toNat none

/-- Write `grid[y][x] = v` (used by the source only at in-bounds indices). -/
def setCell (g : Grid) (x y : Int) (v : Cell) : Grid :=
  g.set y.toNat ((g.getD y.toNat []).set x.toNat v)

/-- Python dict `self.objects` lookup (`objects.get(obj_id)` /
`obj_id in self.objects`): first matching key in the association list. -/
def lookupObj : List (String × PlatformObject) → String → Option PlatformObject
  | [], _ => none
  | (k, v) :: rest, i => if k = i then some v else lookupObj rest i

/-- Mirrors `TilePlatform`'s state: dimensions, grid and object registry. -/
structure TilePlatform where
  width : Int
  length : Int
  grid : Grid
  objects : List (String × PlatformObject)
deriving Repr, DecidableEq

/-- `TilePlatform.__init__(width, length)`: raises on non-positive
dimensions, otherwise an all-empty `length`-by-`width` grid and an
empty registry. -/
def TilePlatform.init (width length : Int) : Except String TilePlatform :=
  if width ≤ 0 ∨ length ≤ 0 then
    Except.error "Width and length must be positive integers."
  else
    Except.ok
      { width := width, length := length,
        grid := List.replicate length.toNat (List.replicate width.toNat none),
        objects := [] }

/-- `TilePlatform._is_valid_position`: the bounding box
`[start_x, start_x+obj_width) x [start_y, start_y+obj_length)` lies
within the platform. -/
def TilePlatform.is_valid_position (p : TilePlatform)
    (start_x start_y obj_width obj_length : Int) : Bool :=
  if start_x < 0 || start_y < 0 then false
  else if start_x + obj_width > p.width || start_y + obj_length > p.length then false
  else true

/-- `TilePlatform._is_area_free`: every cell of the bounding box is
empty (`grid[y][x] != 0` nowhere); the `y`/`x` loops are
`range(start, start + count)`, empty when the count is non-positive. -/
def TilePlatform.is_area_free (p : TilePlatform)
    (start_x start_y obj_width obj_length : Int) : Bool :=
  (List.range obj_length.toNat).all fun (dy : Nat) =>
    (List.range obj_width.toNat).all fun (dx : Nat) =>
      getCell p.grid (start_x + (dx : Int)) (start_y + (dy : Int)) = none

/-- The inner `for x in range(start_x, start_x + obj_width)` commit loop
of `place_object`, writing the object into one grid row. -/
def fillRow (g : Grid) (start_x y : Int) (w : Nat) (obj : PlatformObject) : Grid :=
  (List.range w).foldl (fun g (dx : Nat) => setCell g (start_x + (dx : Int)) y (some obj)) g

/-- The outer `for y in range(start_y, start_y + obj_length)` commit
loop of `place_object`, writing the object into every bounding-box cell. -/
def fillArea (g : Grid) (start_x start_y : Int) (w l : Nat) (obj : PlatformObject) : Grid :=
  (List.range l).foldl (fun g (dy : Nat) => fillRow g start_x (start_y + (dy : Int)) w obj) g

/-- Which failure branch of `place_object` fired; each corresponds to a
distinct `print` message in the source. -/
inductive PlaceFailure where
  | duplicateId
  | outOfBounds
  | collision
deriving Repr, DecidableEq

/-- Everything observable about a `place_object` call: the failure
branch taken (if any), the Python `bool` return value, the platform
after the call, and the passed object after the call (Python mutates
the object's coordinates through the caller's reference on success). -/
structure PlaceResult where
  err : Option PlaceFailure
  ret : Bool
  platform : TilePlatform
  obj : PlatformObject
deriving Repr, DecidableEq

/-- `TilePlatform.place_object(start_x, start_y, obj)`: duplicate-id
check, bounds check, collision check, then commit (write the object
into every bounding-box cell, register it under its id, set its
coordinates).  The committed/stored object carries the updated
coordinates, since Python stores a reference and then mutates it. -/
def TilePlatform.place_object (p : TilePlatform) (start_x start_y : Int)
    (obj : PlatformObject) : PlaceResult :=
  if lookupObj p.objects obj.id ≠ none then
    { err := some PlaceFailure.duplicateId, ret := false, platform := p, obj := obj }
  else if ¬ p.is_valid_position start_x start_y obj.width_tiles obj.length_tiles then
    { err := some PlaceFailure.outOfBounds, ret := false, platform := p, obj := obj }
  else if ¬ p.is_area_free start_x start_y obj.width_tiles obj.length_tiles then
    { err := some PlaceFailure.collision, ret := false, platform := p, obj := obj }
  else
    let placed := { obj with x_coord := start_x, y_coord := start_y }
    { err := none, ret := true,
      platform :=
        { p with
          grid := fillArea p.grid start_x start_y obj.width_tiles.toNat obj.length_tiles.toNat placed,
          objects := (obj.id, placed) :: p.objects },
      obj := placed }

/-- `TilePlatform.get_object_instance(obj_id)`: `self.objects.get(obj_id)`. -/
def TilePlatform.get_object_instance (p : TilePlatform) (obj_id : String) :
    Option PlatformObject :=
  lookupObj p.objects obj_id

/-- Run a sequence of `place_object` calls, returning the final
platform and, per call, the failure branch and the caller's object
after the call. -/
def runPlaces (p : TilePlatform) :
    List (Int × Int × PlatformObject) → TilePlatform × List (Option PlaceFailure × PlatformObject)
  | [] => (p, [])
  | (x, y, obj) :: rest =>
      let r := p.place_object x y obj
      let rs := runPlaces r.platform rest
      (rs.1, (r.err, r.obj) :: rs.2)

/-- The platform's grid really is `length` rows of `width` cells (true
of every platform built by `TilePlatform.init` and preserved by
`place_object`). -/
def TilePlatform.wf (p : TilePlatform) : Bool :=
  ((p.grid.length : Int) = p.length) && p.grid.all fun row => ((row.length : Int) = p.width)

/-- The occupancy invariant: the grid is well-formed and every
registered object sits at in-bounds coordinates with every cell of its
bounding box referring to it. -/
def PlatformInv (p : TilePlatform) : Prop :=
  p.wf = true ∧
  ∀ i o, lookupObj p.objects i = some o →
    o.id = i ∧ 0 ≤ o.x_coord ∧ 0 ≤ o.y_coord ∧
    o.x_coord + o.width_tiles ≤ p.width ∧ o.y_coord + o.length_tiles ≤ p.length ∧
    ∀ dy : Nat, dy < o.length_tiles.toNat → ∀ dx : Nat, dx < o.width_tiles.toNat →
      getCell p.grid (o.x_coord + (dx : Int)) (o.y_coord + (dy : Int)) = some o

/-- Fallback object for `Option.getD` on constructor results. -/
def fallbackObject : PlatformObject :=
  { id := "", width_tiles := 0, length_tiles := 0, x_coord := -1, y_coord := -1, shape_mask := [] }

/-- Fallback platform for `Option.getD` on constructor results. -/
def fallbackPlatform : TilePlatform :=
  { width := 0, length := 0, grid := [], objects := [] }

/-- Default list entry used with `List.getD` on request lists. -/
def reqDefault : Int × Int × PlatformObject := (0, 0, fallbackObject)

/-- Default list entry used with `List.getD` on `runPlaces` traces. -/
def resDefault : Option PlaceFailure × PlatformObject :=
  (some PlaceFailure.duplicateId, fallbackObject)

/-- `TilePlatform(10, 5)` from `run_tests`. -/
def demoPlatform : TilePlatform :=
  (TilePlatform.init 10 5).toOption.getD fallbackPlatform

/-- `PlatformObject("HouseA", 3, 2)` from `run_tests`. -/
def demoHouse : PlatformObject :=
  (PlatformObject.init "HouseA" 3 2 none).toOption.getD fallbackObject

/-- `PlatformObject("Rock", 1, 1)` from `run_tests`. -/
def demoRock : PlatformObject :=
  (PlatformObject.init "Rock" 1 1 none).toOption.getD fallbackObject

/-- `PlatformObject("Fence", 2, 1)` from `run_tests`. -/
def demoFence : PlatformObject :=
  (PlatformObject.init "Fence" 2 1 none).toOption.getD fallbackObject

/-- `PlatformObject("TreeX", 3, 3, mature_tree_mask)` from `run_tests`. -/
def demoTree : PlatformObject :=
  (PlatformObject.init "TreeX" 3 3 (some [[1, 1, 1], [1, 1, 0], [1, 0, 0]])).toOption.getD
    fallbackObject

/-- The demo platform after successfully placing `HouseA` at `(1, 1)`. -/
def demoPlatform1 : TilePlatform := (demoPlatform.place_object 1 1 demoHouse).platform

/-- A demo run: place `HouseA` at `(1, 1)` and `TreeX` at `(5, 1)`. -/
def demoReqs : List (Int × Int × PlatformObject) := [(1, 1, demoHouse), (5, 1, demoTree)]

/-! ### Basic lemmas about cells, rows and the commit loops -/

theorem getD_set_list {α : Type} (l : List α) (i j : Nat) (v d : α) :
    (l.set i v).getD j d = if i = j ∧ i < l.length then v else l.getD j d := by
  simp only [List.getD_eq_getElem?_getD, List.getElem?_set]
  by_cases h1 : i = j
  · subst h1
    by_cases h2 : i < l.length
    · simp [h2]
    · simp [h2, List.getElem?_eq_none (Nat.le_of_not_lt h2)]
  · simp [h1]

theorem getD_eq_default_of_le {α : Type} (l : List α) (i : Nat) (d : α)
    (h : l.length ≤ i) : l.getD i d = d := by
  simp [List.getD_eq_getElem?_getD, List.getElem?_eq_none h]

theorem length_setCell (g : Grid) (x y : Int) (v : Cell) :
    (setCell g x y v).length = g.length := by
  simp [setCell]

theorem row_length_setCell (g : Grid) (x y : Int) (v : Cell) (j : Nat) :
    ((setCell g x y v).getD j []).length = (g.getD j []).length := by
  unfold setCell
  rw [getD_set_list]
  split
  · rename_i h
    rw [List.length_set, h.1]
  · rfl

theorem getCell_setCell (g : Grid) (a b : Int) (v : Cell) (cx cy : Int) :
    getCell (setCell g a b v) cx cy =
      if b.toNat = cy.toNat ∧ a.toNat = cx.toNat ∧ cy.toNat < g.length ∧
         cx.toNat < (g.getD cy.toNat []).length then v
      else getCell g cx cy := by
  unfold getCell setCell
  rw [getD_set_list]
  by_cases hb : b.toNat = cy.toNat ∧ b.toNat < g.length
  · rw [if_pos hb]
    obtain ⟨hb1, hb2⟩ := hb
    rw [← hb1, getD_set_list]
    split_ifs <;> first | rfl | omega
  · rw [if_neg hb, if_neg (by omega)]

theorem fillRow_succ (g : Grid) (sx y : Int) (n : Nat) (o : PlatformObject) :
    fillRow g sx y (n + 1) o = setCell (fillRow g sx y n o) (sx + (n : Int)) y (some o) := by
  unfold fillRow
  rw [List.range_succ, List.foldl_append]
  rfl

theorem length_fillRow (g : Grid) (sx y : Int) (w : Nat) (o : PlatformObject) :
    (fillRow g sx y w o).length = g.length := by
  induction w with
  | zero => rfl
  | succ n ih => rw [fillRow_succ, length_setCell, ih]

theorem row_length_fillRow (g : Grid) (sx y : Int) (w : Nat) (o : PlatformObject) (j : Nat) :
    ((fillRow g sx y w o).getD j []).length = (g.getD j []).length := by
  induction w with
  | zero => rfl
  | succ n ih => rw [fillRow_succ, row_length_setCell, ih]

theorem getCell_fillRow (g : Grid) (sx y : Int) (w : Nat) (o : PlatformObject)
    (cx cy : Int) (hsx : 0 ≤ sx) :
    getCell (fillRow g sx y w o) cx cy =
      if y.toNat = cy.toNat ∧ sx.toNat ≤ cx.toNat ∧ cx.toNat < sx.toNat + w ∧
         cy.toNat < g.length ∧ cx.toNat < (g.getD cy.toNat []).length then some o
      else getCell g cx cy := by
  induction w with
  | zero =>
    rw [show fillRow g sx y 0 o = g from rfl, if_neg (by omega)]
  | succ n ih =>
    rw [fillRow_succ, getCell_setCell, ih, length_fillRow, row_length_fillRow]
    split_ifs <;> first | rfl | omega

theorem fillArea_succ (g : Grid) (sx sy : Int) (w n : Nat) (o : PlatformObject) :
    fillArea g sx sy w (n + 1) o = fillRow (fillArea g sx sy w n o) sx (sy + (n : Int)) w o := by
  unfold fillArea
  rw [List.range_succ, List.foldl_append]
  rfl

theorem length_fillArea (g : Grid) (sx sy : Int) (w l : Nat) (o : PlatformObject) :
    (fillArea g sx sy w l o).length = g.length := by
  induction l with
  | zero => rfl
  | succ n ih => rw [fillArea_succ, length_fillRow, ih]

theorem row_length_fillArea (g : Grid) (sx sy : Int) (w l : Nat) (o : PlatformObject) (j : Nat) :
    ((fillArea g sx sy w l o).getD j []).length = (g.getD j []).length := by
  induction l with
  | zero => rfl
  | succ n ih => rw [fillArea_succ, row_length_fillRow, ih]

theorem getCell_fillArea (g : Grid) (sx sy : Int) (w l : Nat) (o : PlatformObject)
    (cx cy : Int) (hsx : 0 ≤ sx) (hsy : 0 ≤ sy) :
    getCell (fillArea g sx sy w l o) cx cy =
      if sy.toNat ≤ cy.toNat ∧ cy.toNat < sy.toNat + l ∧ sx.toNat ≤ cx.toNat ∧
         cx.toNat < sx.toNat + w ∧ cy.toNat < g.length ∧
         cx.toNat < (g.getD cy.toNat []).length then some o
      else getCell g cx cy := by
  induction l with
  | zero =>
    rw [show fillArea g sx sy w 0 o = g from rfl, if_neg (by omega)]
  | succ n ih =>
    rw [fillArea_succ, getCell_fillRow _ _ _ _ _ _ _ hsx, ih, length_fillArea,
      row_length_fillArea]
    split_ifs <;> first | rfl | omega

theorem getCell_congr (g : Grid) (cx cy cx' cy' : Int)
    (hx : cx.toNat = cx'.toNat) (hy : cy.toNat = cy'.toNat) :
    getCell g cx cy = getCell g cx' cy' := by
  unfold getCell
  rw [hx, hy]

/-! ### Characterizations of the three checks -/

theorem is_valid_position_iff (p : TilePlatform) (sx sy w l : Int) :
    p.is_valid_position sx sy w l = true ↔
      0 ≤ sx ∧ 0 ≤ sy ∧ sx + w ≤ p.width ∧ sy + l ≤ p.length := by
  unfold TilePlatform.is_valid_position
  split_ifs with h1 h2 <;> simp_all <;> omega

theorem is_area_free_iff (p : TilePlatform) (sx sy w l : Int) :
    p.is_area_free sx sy w l = true ↔
      ∀ dy : Nat, dy < l.toNat → ∀ dx : Nat, dx < w.toNat →
        getCell p.grid (sx + (dx : Int)) (sy + (dy : Int)) = none := by
  unfold TilePlatform.is_area_free
  simp only [List.all_eq_true, List.mem_range, decide_eq_true_eq]

/-! ### The four branches of `place_object` -/

theorem place_object_dup (p : TilePlatform) (x y : Int) (obj : PlatformObject)
    (h : lookupObj p.objects obj.id ≠ none) :
    p.place_object x y obj =
      { err := some PlaceFailure.duplicateId, ret := false, platform := p, obj := obj } := by
  unfold TilePlatform.place_object
  rw [if_pos h]

theorem place_object_oob (p : TilePlatform) (x y : Int) (obj : PlatformObject)
    (h1 : lookupObj p.objects obj.id = none)
    (h2 : p.is_valid_position x y obj.width_tiles obj.length_tiles = false) :
    p.place_object x y obj =
      { err := some PlaceFailure.outOfBounds, ret := false, platform := p, obj := obj } := by
  unfold TilePlatform.place_object
  rw [if_neg (by simp [h1]), if_pos (by simp [h2])]

theorem place_object_coll (p : TilePlatform) (x y : Int) (obj : PlatformObject)
    (h1 : lookupObj p.objects obj.id = none)
    (h2 : p.is_valid_position x y obj.width_tiles obj.length_tiles = true)
    (h3 : p.is_area_free x y obj.width_tiles obj.length_tiles = false) :
    p.place_object x y obj =
      { err := some PlaceFailure.collision, ret := false, platform := p, obj := obj } := by
  unfold TilePlatform.place_object
  rw [if_neg (by simp [h1]), if_neg (by simp [h2]), if_pos (by simp [h3])]

theorem place_object_ok (p : TilePlatform) (x y : Int) (obj : PlatformObject)
    (h1 : lookupObj p.objects obj.id = none)
    (h2 : p.is_valid_position x y obj.width_tiles obj.length_tiles = true)
    (h3 : p.is_area_free x y obj.width_tiles obj.length_tiles = true) :
    p.place_object x y obj =
      { err := none, ret := true,
        platform :=
          { p with
            grid := fillArea p.grid x y obj.width_tiles.toNat obj.length_tiles.toNat
              { obj with x_coord := x, y_coord := y },
            objects := (obj.id, { obj with x_coord := x, y_coord := y }) :: p.objects },
        obj := { obj with x_coord := x, y_coord := y } } := by
  unfold TilePlatform.place_object
  rw [if_neg (by simp [h1]), if_neg (by simp [h2]), if_neg (by simp [h3])]

/-! ### Well-formedness and construction -/

theorem init_ok_iff (W L : Int) (p0 : TilePlatform) :
    TilePlatform.init W L = Except.ok p0 ↔
      0 < W ∧ 0 < L ∧
      p0 = { width := W, length := L,
             grid := List.replicate L.toNat (List.replicate W.toNat none),
             objects := [] } := by
  unfold TilePlatform.init
  split_ifs with h
  · constructor
    · intro he
      cases he
    · intro hc
      omega
  · constructor
    · intro he
      cases he
      exact ⟨by omega, by omega, rfl⟩
    · intro hc
      rw [hc.2.2]

theorem wf_iff (p : TilePlatform) :
    p.wf = true ↔
      (p.grid.length : Int) = p.length ∧
      ∀ j : Nat, j < p.grid.length → ((p.grid.getD j []).length : Int) = p.width := by
  unfold TilePlatform.wf
  simp only [Bool.and_eq_true, List.all_eq_true, decide_eq_true_eq]
  constructor
  · rintro ⟨h1, h2⟩
    refine ⟨h1, fun j hj => ?_⟩
    rw [List.getD_eq_getElem _ _ hj]
    exact h2 _ (List.getElem_mem hj)
  · rintro ⟨h1, h2⟩
    refine ⟨h1, fun row hrow => ?_⟩
    obtain ⟨j, hj, rfl⟩ := List.mem_iff_getElem.mp hrow
    rw [← List.getD_eq_getElem _ ([] : List Cell) hj]
    exact h2 j hj

theorem init_wf (W L : Int) (p0 : TilePlatform)
    (h : TilePlatform.init W L = Except.ok p0) : p0.wf = true := by
  obtain ⟨hW, hL, rfl⟩ := (init_ok_iff W L p0).mp h
  rw [wf_iff]
  constructor
  · simp
    omega
  · intro j hj
    simp only [List.length_replicate] at hj
    rw [List.getD_eq_getElem _ _ (by simpa using hj), List.getElem_replicate]
    simp
    omega

/-! ### Consequences of the `place_object` branches -/

theorem place_err_none_iff (p : TilePlatform) (x y : Int) (obj : PlatformObject) :
    (p.place_object x y obj).err = none ↔
      lookupObj p.objects obj.id = none ∧
      p.is_valid_position x y obj.width_tiles obj.length_tiles = true ∧
      p.is_area_free x y obj.width_tiles obj.length_tiles = true := by
  unfold TilePlatform.place_object
  split_ifs <;> simp_all

theorem place_failure_state (p : TilePlatform) (x y : Int) (obj : PlatformObject)
    (h : (p.place_object x y obj).err ≠ none) :
    (p.place_object x y obj).platform = p ∧ (p.place_object x y obj).obj = obj := by
  unfold TilePlatform.place_object at h ⊢
  split_ifs at h ⊢ <;> simp_all

theorem lookup_preserved_place (p : TilePlatform) (x y : Int) (obj : PlatformObject)
    (i : String) (o : PlatformObject) (h : lookupObj p.objects i = some o) :
    lookupObj (p.place_object x y obj).platform.objects i = some o := by
  by_cases herr : (p.place_object x y obj).err = none
  · obtain ⟨hd, hv, hf⟩ := (place_err_none_iff p x y obj).mp herr
    have hne : obj.id ≠ i := by
      intro he
      rw [he, h] at hd
      cases hd
    rw [place_object_ok p x y obj hd hv hf]
    dsimp only
    simp only [lookupObj, if_neg hne]
    exact h
  · rw [(place_failure_state p x y obj herr).1]
    exact h

theorem place_success_registers (p : TilePlatform) (x y : Int) (obj : PlatformObject)
    (h : (p.place_object x y obj).err = none) :
    (p.place_object x y obj).obj = { obj with x_coord := x, y_coord := y } ∧
    lookupObj (p.place_object x y obj).platform.objects obj.id =
      some (p.place_object x y obj).obj := by
  unfold TilePlatform.place_object at h ⊢
  split_ifs at h ⊢
  simp_all [lookupObj]

theorem place_lookup_none (p : TilePlatform) (x y : Int) (obj : PlatformObject) (i : String)
    (h0 : lookupObj p.objects i = none)
    (hne : (p.place_object x y obj).err = none → obj.id ≠ i) :
    lookupObj (p.place_object x y obj).platform.objects i = none := by
  unfold TilePlatform.place_object at hne ⊢
  split_ifs at hne ⊢ <;> simp_all [lookupObj]

/-! ### Runs of placements -/

theorem runPlaces_cons (p : TilePlatform) (x y : Int) (obj : PlatformObject)
    (rest : List (Int × Int × PlatformObject)) :
    runPlaces p ((x, y, obj) :: rest) =
      ((runPlaces (p.place_object x y obj).platform rest).1,
       ((p.place_object x y obj).err, (p.place_object x y obj).obj) ::
         (runPlaces (p.place_object x y obj).platform rest).2) := rfl

theorem runPlaces_trace_length (reqs : List (Int × Int × PlatformObject)) (p : TilePlatform) :
    (runPlaces p reqs).2.length = reqs.length := by
  induction reqs generalizing p with
  | nil => rfl
  | cons r rest ih =>
    obtain ⟨x, y, obj⟩ := r
    rw [runPlaces_cons]
    simp [ih]

theorem lookup_preserved_runPlaces (reqs : List (Int × Int × PlatformObject))
    (p : TilePlatform) (i : String) (o : PlatformObject)
    (h : lookupObj p.objects i = some o) :
    lookupObj (runPlaces p reqs).1.objects i = some o := by
  induction reqs generalizing p with
  | nil => exact h
  | cons r rest ih =>
    obtain ⟨x, y, obj⟩ := r
    rw [runPlaces_cons]
    exact ih _ (lookup_preserved_place p x y obj i o h)

theorem lookup_none_runPlaces (reqs : List (Int × Int × PlatformObject))
    (p : TilePlatform) (i : String)
    (h0 : lookupObj p.objects i = none)
    (h : ∀ k, k < reqs.length →
      ((runPlaces p reqs).2.getD k resDefault).1 = none →
      (reqs.getD k reqDefault).2.2.id ≠ i) :
    lookupObj (runPlaces p reqs).1.objects i = none := by
  induction reqs generalizing p with
  | nil => exact h0
  | cons r rest ih =>
    obtain ⟨x, y, obj⟩ := r
    rw [runPlaces_cons] at h ⊢
    refine ih _ (place_lookup_none p x y obj i h0 ?_) ?_
    · intro hsucc
      have := h 0 (by simp) (by simpa using hsucc)
      simpa using this
    · intro k hk hsucc
      have := h (k + 1) (by simpa using Nat.succ_lt_succ hk) (by simpa using hsucc)
      simpa using this

theorem runPlaces_success_lookup (reqs : List (Int × Int × PlatformObject))
    (p : TilePlatform) (k : Nat) (hk : k < reqs.length)
    (hsucc : ((runPlaces p reqs).2.getD k resDefault).1 = none) :
    ((runPlaces p reqs).2.getD k resDefault).2 =
      { (reqs.getD k reqDefault).2.2 with
        x_coord := (reqs.getD k reqDefault).1, y_coord := (reqs.getD k reqDefault).2.1 } ∧
    lookupObj (runPlaces p reqs).1.objects ((reqs.getD k reqDefault).2.2.id) =
      some ((runPlaces p reqs).2.getD k resDefault).2 := by
  induction reqs generalizing p k with
  | nil => cases hk
  | cons r rest ih =>
    obtain ⟨x, y, obj⟩ := r
    rw [runPlaces_cons] at hsucc ⊢
    cases k with
    | zero =>
      simp only [List.getD_cons_zero] at hsucc ⊢
      have hreg := place_success_registers p x y obj hsucc
      refine ⟨hreg.1, ?_⟩
      exact lookup_preserved_runPlaces rest _ _ _ hreg.2
    | succ k' =>
      simp only [List.getD_cons_succ] at hsucc ⊢
      exact ih _ k' (by simpa using Nat.lt_of_succ_lt_succ hk) hsucc

/-! ### The occupancy invariant -/

theorem init_inv (W L : Int) (p0 : TilePlatform)
    (h : TilePlatform.init W L = Except.ok p0) : PlatformInv p0 := by
  refine ⟨init_wf W L p0 h, ?_⟩
  obtain ⟨hW, hL, rfl⟩ := (init_ok_iff W L p0).mp h
  intro i o hio
  simp [lookupObj] at hio

theorem place_preserves_inv (p : TilePlatform) (x y : Int) (obj : PlatformObject)
    (hInv : PlatformInv p) : PlatformInv (p.place_object x y obj).platform := by
  by_cases herr : (p.place_object x y obj).err = none
  · obtain ⟨hd, hv, hf⟩ := (place_err_none_iff p x y obj).mp herr
    obtain ⟨hx0, hy0, hxw, hyl⟩ := (is_valid_position_iff p x y _ _).mp hv
    have hfree := (is_area_free_iff p x y _ _).mp hf
    obtain ⟨hwf, hreg⟩ := hInv
    have hglen : (p.grid.length : Int) = p.length := ((wf_iff p).mp hwf).1
    have hrowlen := ((wf_iff p).mp hwf).2
    rw [place_object_ok p x y obj hd hv hf]
    dsimp only
    constructor
    · rw [wf_iff]
      dsimp only
      constructor
      · rw [length_fillArea]
        exact hglen
      · intro j hj
        rw [row_length_fillArea]
        apply hrowlen
        rwa [length_fillArea] at hj
    · intro i o hio
      simp only [lookupObj] at hio
      split_ifs at hio with hcase
      · -- the newly registered object
        injection hio with hio
        subst hio
        refine ⟨hcase, hx0, hy0, hxw, hyl, ?_⟩
        intro dy hdy dx hdx
        dsimp only at hdy hdx ⊢
        have hrl := hrowlen (y + (dy : Int)).toNat (by omega)
        rw [getCell_fillArea _ _ _ _ _ _ _ _ hx0 hy0, if_pos (by omega)]
      · -- an object registered before this call
        obtain ⟨hid, hox, hoy, hoxw, hoyl, hcells⟩ := hreg i o hio
        refine ⟨hid, hox, hoy, hoxw, hoyl, ?_⟩
        intro dy hdy dx hdx
        have hold := hcells dy hdy dx hdx
        rw [getCell_fillArea _ _ _ _ _ _ _ _ hx0 hy0, if_neg ?_]
        · exact hold
        · intro hc
          have hcc : getCell p.grid (o.x_coord + (dx : Int)) (o.y_coord + (dy : Int)) =
              getCell p.grid (x + (((o.x_coord + (dx : Int)).toNat - x.toNat : Nat) : Int))
                (y + (((o.y_coord + (dy : Int)).toNat - y.toNat : Nat) : Int)) :=
            getCell_congr _ _ _ _ _ (by omega) (by omega)
          have hnone := hfree ((o.y_coord + (dy : Int)).toNat - y.toNat) (by omega)
            ((o.x_coord + (dx : Int)).toNat - x.toNat) (by omega)
          rw [hcc, hnone] at hold
          cases hold
  · rw [(place_failure_state p x y obj herr).1]
    exact hInv

theorem runPlaces_inv (reqs : List (Int × Int × PlatformObject)) (p : TilePlatform)
    (h : PlatformInv p) : PlatformInv (runPlaces p reqs).1 := by
  induction reqs generalizing p with
  | nil => exact h
  | cons r rest ih =>
    obtain ⟨x, y, obj⟩ := r
    rw [runPlaces_cons]
    exact ih _ (place_preserves_inv p x y obj h)

/-! ### Claim theorems -/

/-- C1: for every grid and every placement request whose bounding box
sticks out of the platform (`x<0 ∨ y<0 ∨ x+w>W ∨ y+l>L`) and whose id
is not yet registered, `place_object` takes the out-of-bounds failure
branch, returns `False`, and leaves the platform (occupancy grid and
registry) and the object unchanged. -/
theorem place_out_of_bounds_fails (p : TilePlatform) (x y : Int) (obj : PlatformObject)
    (hdup : lookupObj p.objects obj.id = none)
    (hoob : x < 0 ∨ y < 0 ∨ x + obj.width_tiles > p.width ∨ y + obj.length_tiles > p.length) :
    p.place_object x y obj =
      { err := some PlaceFailure.outOfBounds, ret := false, platform := p, obj := obj } := by
  have hvp : p.is_valid_position x y obj.width_tiles obj.length_tiles = false := by
    rw [Bool.eq_false_iff]
    intro hb
    have := (is_valid_position_iff p x y obj.width_tiles obj.length_tiles).mp hb
    omega
  exact place_object_oob p x y obj hdup hvp

/-- C2: for an in-bounds, non-duplicate placement, `place_object` takes
the collision branch exactly when some cell of the full bounding box is
already occupied — the shape mask plays no role: replacing it by any
mask leaves the outcome of every placement unchanged. -/
theorem place_collision_full_bbox (p : TilePlatform) (x y : Int) (obj : PlatformObject)
    (hdup : lookupObj p.objects obj.id = none)
    (hbounds : p.is_valid_position x y obj.width_tiles obj.length_tiles = true) :
    ((p.place_object x y obj).err = some PlaceFailure.collision ↔
      ∃ dy : Nat, dy < obj.length_tiles.toNat ∧ ∃ dx : Nat, dx < obj.width_tiles.toNat ∧
        getCell p.grid (x + (dx : Int)) (y + (dy : Int)) ≠ none) ∧
    ∀ m : List (List Int),
      (p.place_object x y { obj with shape_mask := m }).err =
        (p.place_object x y obj).err := by
  constructor
  · rcases hfree : p.is_area_free x y obj.width_tiles obj.length_tiles with _ | _
    · rw [place_object_coll p x y obj hdup hbounds hfree]
      simp only [true_iff]
      have := (is_area_free_iff p x y obj.width_tiles obj.length_tiles).not.mp
        (by rw [hfree]; simp)
      push_neg at this
      obtain ⟨dy, hdy, dx, hdx, hcell⟩ := this
      exact ⟨dy, hdy, dx, hdx, hcell⟩
    · rw [place_object_ok p x y obj hdup hbounds hfree]
      simp only [reduceCtorEq, false_iff]
      intro ⟨dy, hdy, dx, hdx, hcell⟩
      exact hcell ((is_area_free_iff p x y obj.width_tiles obj.length_tiles).mp hfree dy hdy dx hdx)
  · intro m
    rcases hfree : p.is_area_free x y obj.width_tiles obj.length_tiles with _ | _
    · rw [place_object_coll p x y obj hdup hbounds hfree,
          place_object_coll p x y { obj with shape_mask := m } hdup hbounds hfree]
    · rw [place_object_ok p x y obj hdup hbounds hfree,
          place_object_ok p x y { obj with shape_mask := m } hdup hbounds hfree]

/-- C3: when all three checks pass, `place_object` returns `True` with
no failure branch, the caller's object gets coordinates `(x, y)`, the
registry maps its id to that updated object, and every cell of the
bounding box holds a reference to it (requires the grid to really be
`length` rows of `width` cells, true of every constructed platform). -/
theorem place_success_commits (p : TilePlatform) (x y : Int) (obj : PlatformObject)
    (hwf : p.wf = true)
    (hdup : lookupObj p.objects obj.id = none)
    (hbounds : p.is_valid_position x y obj.width_tiles obj.length_tiles = true)
    (hfree : p.is_area_free x y obj.width_tiles obj.length_tiles = true) :
    (p.place_object x y obj).ret = true ∧
    (p.place_object x y obj).err = none ∧
    (p.place_object x y obj).obj = { obj with x_coord := x, y_coord := y } ∧
    lookupObj (p.place_object x y obj).platform.objects obj.id =
      some { obj with x_coord := x, y_coord := y } ∧
    ∀ dy : Nat, dy < obj.length_tiles.toNat → ∀ dx : Nat, dx < obj.width_tiles.toNat →
      getCell (p.place_object x y obj).platform.grid (x + (dx : Int)) (y + (dy : Int)) =
        some { obj with x_coord := x, y_coord := y } := by
  obtain ⟨hx0, hy0, hxw, hyl⟩ := (is_valid_position_iff p x y _ _).mp hbounds
  have hglen : (p.grid.length : Int) = p.length := ((wf_iff p).mp hwf).1
  have hrowlen := ((wf_iff p).mp hwf).2
  rw [place_object_ok p x y obj hdup hbounds hfree]
  refine ⟨rfl, rfl, rfl, ?_, ?_⟩
  · dsimp only
    simp [lookupObj]
  · intro dy hdy dx hdx
    dsimp only
    have hrl := hrowlen (y + (dy : Int)).toNat (by omega)
    rw [getCell_fillArea _ _ _ _ _ _ _ _ hx0 hy0, if_pos (by omega)]

/-- C4: every failing `place_object` call (duplicate id, out of bounds
or collision) leaves the platform's occupancy grid and registry exactly
as they were before the call. -/
theorem place_failure_transactional (p : TilePlatform) (x y : Int) (obj : PlatformObject)
    (h : (p.place_object x y obj).err ≠ none) :
    (p.place_object x y obj).platform.grid = p.grid ∧
    (p.place_object x y obj).platform.objects = p.objects := by
  rw [(place_failure_state p x y obj h).1]
  exact ⟨rfl, rfl⟩

/-- C5: whenever the object's id is already registered, `place_object`
takes the duplicate-id failure branch regardless of the coordinates
(`x` and `y` are arbitrary, so this covers re-placing the identical
registered instance at its own coordinates and free, in-bounds targets)
and changes nothing. -/
theorem place_duplicate_fails (p : TilePlatform) (x y : Int) (obj : PlatformObject)
    (h : lookupObj p.objects obj.id ≠ none) :
    p.place_object x y obj =
      { err := some PlaceFailure.duplicateId, ret := false, platform := p, obj := obj } :=
  place_object_dup p x y obj h

/-- C6: `get_object_instance` is a pure read of the registry (in this
embedding it is a function of the platform alone, so it cannot change
the state).  After any run of placements from a freshly constructed
platform: if call `k` succeeded, the object the caller passed to call
`k` — as mutated by that call, i.e. with its coordinates set to the
call's target — is exactly what lookup returns for its id; and lookup
returns `none` for any id that no successful call registered. -/
theorem get_object_instance_spec (W L : Int) (p0 : TilePlatform)
    (hinit : TilePlatform.init W L = Except.ok p0)
    (reqs : List (Int × Int × PlatformObject))
    (k : Nat) (hk : k < reqs.length)
    (hsucc : ((runPlaces p0 reqs).2.getD k resDefault).1 = none)
    (i : String)
    (hnever : ∀ j, j < reqs.length →
      ((runPlaces p0 reqs).2.getD j resDefault).1 = none →
      (reqs.getD j reqDefault).2.2.id ≠ i) :
    ((runPlaces p0 reqs).2.getD k resDefault).2 =
      { (reqs.getD k reqDefault).2.2 with
        x_coord := (reqs.getD k reqDefault).1,
        y_coord := (reqs.getD k reqDefault).2.1 } ∧
    (runPlaces p0 reqs).1.get_object_instance ((reqs.getD k reqDefault).2.2.id) =
      some ((runPlaces p0 reqs).2.getD k resDefault).2 ∧
    (runPlaces p0 reqs).1.get_object_instance i = none := by
  have hmain := runPlaces_success_lookup reqs p0 k hk hsucc
  refine ⟨hmain.1, hmain.2, ?_⟩
  have hempty : lookupObj p0.objects i = none := by
    obtain ⟨-, -, rfl⟩ := (init_ok_iff W L p0).mp hinit
    rfl
  exact lookup_none_runPlaces reqs p0 i hempty hnever

/-- C7: starting from a freshly constructed platform, after any
sequence of `place_object` calls the bounding-box footprints of two
objects registered under different ids are disjoint: no cell index
coincides. -/
theorem no_overlap_invariant (W L : Int) (p0 : TilePlatform)
    (hinit : TilePlatform.init W L = Except.ok p0)
    (reqs : List (Int × Int × PlatformObject))
    (i1 i2 : String) (a b : PlatformObject)
    (h1 : lookupObj (runPlaces p0 reqs).1.objects i1 = some a)
    (h2 : lookupObj (runPlaces p0 reqs).1.objects i2 = some b)
    (hne : i1 ≠ i2)
    (dx1 dy1 dx2 dy2 : Nat)
    (hdx1 : dx1 < a.width_tiles.toNat) (hdy1 : dy1 < a.length_tiles.toNat)
    (hdx2 : dx2 < b.width_tiles.toNat) (hdy2 : dy2 < b.length_tiles.toNat) :
    ¬(a.x_coord + (dx1 : Int) = b.x_coord + (dx2 : Int) ∧
      a.y_coord + (dy1 : Int) = b.y_coord + (dy2 : Int)) := by
  rintro ⟨hx, hy⟩
  have hInv := runPlaces_inv reqs p0 (init_inv W L p0 hinit)
  obtain ⟨ha_id, -, -, -, -, hacells⟩ := hInv.2 i1 a h1
  obtain ⟨hb_id, -, -, -, -, hbcells⟩ := hInv.2 i2 b h2
  have ca := hacells dy1 hdy1 dx1 hdx1
  have cb := hbcells dy2 hdy2 dx2 hdx2
  rw [hx, hy, cb] at ca
  injection ca with ca
  subst ca
  exact hne (ha_id.symm.trans hb_id)

/-- C8 counterexample: two failing calls on the demo platform (a
duplicate-id failure and an out-of-bounds failure) return the very same
value `False` to the caller — the kind of the failure is only in the
printed log line, so it is not distinguishable from the return value. -/
theorem place_ret_not_discriminated :
    (demoPlatform1.place_object 1 1 demoHouse).err = some PlaceFailure.duplicateId ∧
    (demoPlatform1.place_object 10 0 demoRock).err = some PlaceFailure.outOfBounds ∧
    (demoPlatform1.place_object 1 1 demoHouse).ret =
      (demoPlatform1.place_object 10 0 demoRock).ret := by
  refine ⟨?_, ?_, ?_⟩ <;> rfl

/-- C8 amended: every failure of `place_object` is observable by the
caller through the return value — it returns `False` exactly when a
failure occurred — but the return value is an undifferentiated boolean;
the failure kind (duplicate id, out of bounds, collision) is
discriminated only by which check failed, reported via the printed
message of the corresponding branch. -/
theorem place_failure_reporting (p : TilePlatform) (x y : Int) (obj : PlatformObject) :
    ((p.place_object x y obj).ret = false ↔ (p.place_object x y obj).err ≠ none) ∧
    ((p.place_object x y obj).err = some PlaceFailure.duplicateId ↔
      lookupObj p.objects obj.id ≠ none) ∧
    ((p.place_object x y obj).err = some PlaceFailure.outOfBounds ↔
      lookupObj p.objects obj.id = none ∧
      p.is_valid_position x y obj.width_tiles obj.length_tiles = false) ∧
    ((p.place_object x y obj).err = some PlaceFailure.collision ↔
      lookupObj p.objects obj.id = none ∧
      p.is_valid_position x y obj.width_tiles obj.length_tiles = true ∧
      p.is_area_free x y obj.width_tiles obj.length_tiles = false) := by
  unfold TilePlatform.place_object
  split_ifs with h1 h2 h3 <;>
    simp_all [not_ne_iff, Bool.not_eq_true]

/-- C9: `PlatformObject.__init__` fails exactly when the id is empty or
a supplied mask's row count differs from `length_tiles` or some row's
column count differs from `width_tiles` (so non-positive dimensions are
not rejected); on success the object is unplaced (both coordinates are
the sentinel `-1`), carries the given id, dimensions and mask, and when
no mask is supplied its mask is the `length`-by-`width` all-ones
rectangle (clamped at zero for negative dimensions, as Python's `range`
and list repetition do). -/
theorem platform_object_init_spec (obj_id : String) (w l : Int)
    (mask : Option (List (List Int))) :
    ((∃ e, PlatformObject.init obj_id w l mask = Except.error e) ↔
      obj_id = "" ∨ ∃ m, mask = some m ∧
        ((m.length : Int) ≠ l ∨ ∃ row ∈ m, (row.length : Int) ≠ w)) ∧
    ∀ o, PlatformObject.init obj_id w l mask = Except.ok o →
      o.id = obj_id ∧ o.width_tiles = w ∧ o.length_tiles = l ∧
      o.x_coord = -1 ∧ o.y_coord = -1 ∧
      (mask = none → o.shape_mask = List.replicate l.toNat (List.replicate w.toNat 1)) ∧
      ∀ m, mask = some m → o.shape_mask = m := by
  unfold PlatformObject.init
  by_cases hid : obj_id = ""
  · rw [if_pos hid]
    constructor
    · simp [hid]
    · intro o ho
      cases ho
  · rw [if_neg hid]
    cases mask with
    | none =>
      dsimp only
      constructor
      · simp [hid]
      · intro o ho
        injection ho with ho
        subst ho
        simp
    | some m =>
      dsimp only
      by_cases hm : (m.length : Int) ≠ l ∨ m.any (fun row => (row.length : Int) ≠ w)
      · rw [if_pos hm]
        constructor
        · simp only [hid, false_or]
          constructor
          · intro
            exact ⟨m, rfl, by simpa [List.any_eq_true] using hm⟩
          · intro
            exact ⟨"Shape mask dimensions must match width_tiles and length_tiles.", rfl⟩
        · intro o ho
          cases ho
      · rw [if_neg hm]
        constructor
        · simp only [hid, false_or]
          constructor
          · rintro ⟨e, he⟩
            cases he
          · rintro ⟨m', hm', hbad⟩
            injection hm' with hm'
            subst hm'
            exact absurd (by simpa [List.any_eq_true] using hbad) hm
        · intro o ho
          injection ho with ho
          subst ho
          simp

/-- C10: on every failing `place_object` call the caller's object is
returned exactly as it was passed — its stored coordinates (the
sentinel `-1` for an unplaced object, or the original coordinates of an
already-placed instance offered under a duplicate id) are untouched. -/
theorem place_failure_object_untouched (p : TilePlatform) (x y : Int) (obj : PlatformObject)
    (h : (p.place_object x y obj).err ≠ none) :
    (p.place_object x y obj).obj = obj ∧
    (p.place_object x y obj).obj.x_coord = obj.x_coord ∧
    (p.place_object x y obj).obj.y_coord = obj.y_coord := by
  rw [(place_failure_state p x y obj h).2]
  exact ⟨rfl, rfl, rfl⟩

/-! ### Concrete witnesses -/

/-- Witness for C1: placing `Rock` (1x1) at `(10, 0)` on the 10x5 demo
platform is rejected out of bounds with everything unchanged. -/
theorem place_out_of_bounds_fails_witness :
    lookupObj demoPlatform.objects demoRock.id = none ∧
    ((10 : Int) < 0 ∨ (0 : Int) < 0 ∨ (10 : Int) + demoRock.width_tiles > demoPlatform.width ∨
      (0 : Int) + demoRock.length_tiles > demoPlatform.length) ∧
    demoPlatform.place_object 10 0 demoRock =
      { err := some PlaceFailure.outOfBounds, ret := false,
        platform := demoPlatform, obj := demoRock } :=
  ⟨by decide, by decide,
   place_out_of_bounds_fails demoPlatform 10 0 demoRock (by decide) (by decide)⟩

/-- Witness for C2: placing `Fence` (2x1) at `(2, 2)` on the demo
platform holding `HouseA` collides exactly because some bounding-box
cell is occupied, and any mask gives the same outcome. -/
theorem place_collision_full_bbox_witness :
    lookupObj demoPlatform1.objects demoFence.id = none ∧
    demoPlatform1.is_valid_position 2 2 demoFence.width_tiles demoFence.length_tiles = true ∧
    (((demoPlatform1.place_object 2 2 demoFence).err = some PlaceFailure.collision ↔
      ∃ dy : Nat, dy < demoFence.length_tiles.toNat ∧
        ∃ dx : Nat, dx < demoFence.width_tiles.toNat ∧
          getCell demoPlatform1.grid ((2 : Int) + (dx : Int)) ((2 : Int) + (dy : Int)) ≠ none) ∧
    ∀ m : List (List Int),
      (demoPlatform1.place_object 2 2 { demoFence with shape_mask := m }).err =
        (demoPlatform1.place_object 2 2 demoFence).err) :=
  ⟨by decide, by decide,
   place_collision_full_bbox demoPlatform1 2 2 demoFence (by decide) (by decide)⟩

/-- Witness for C3: placing `HouseA` (3x2) at `(1, 1)` on the fresh
10x5 demo platform succeeds and commits. -/
theorem place_success_commits_witness :
    demoPlatform.wf = true ∧
    lookupObj demoPlatform.objects demoHouse.id = none ∧
    demoPlatform.is_valid_position 1 1 demoHouse.width_tiles demoHouse.length_tiles = true ∧
    demoPlatform.is_area_free 1 1 demoHouse.width_tiles demoHouse.length_tiles = true ∧
    ((demoPlatform.place_object 1 1 demoHouse).ret = true ∧
    (demoPlatform.place_object 1 1 demoHouse).err = none ∧
    (demoPlatform.place_object 1 1 demoHouse).obj =
      { demoHouse with x_coord := 1, y_coord := 1 } ∧
    lookupObj (demoPlatform.place_object 1 1 demoHouse).platform.objects demoHouse.id =
      some { demoHouse with x_coord := 1, y_coord := 1 } ∧
    ∀ dy : Nat, dy < demoHouse.length_tiles.toNat →
      ∀ dx : Nat, dx < demoHouse.width_tiles.toNat →
        getCell (demoPlatform.place_object 1 1 demoHouse).platform.grid
            ((1 : Int) + (dx : Int)) ((1 : Int) + (dy : Int)) =
          some { demoHouse with x_coord := 1, y_coord := 1 }) :=
  ⟨by decide, by decide, by decide, by decide,
   place_success_commits demoPlatform 1 1 demoHouse (by decide) (by decide) (by decide)
     (by decide)⟩

/-- Witness for C4: the colliding `Fence` placement fails and leaves
grid and registry untouched. -/
theorem place_failure_transactional_witness :
    (demoPlatform1.place_object 2 2 demoFence).err ≠ none ∧
    ((demoPlatform1.place_object 2 2 demoFence).platform.grid = demoPlatform1.grid ∧
     (demoPlatform1.place_object 2 2 demoFence).platform.objects = demoPlatform1.objects) :=
  ⟨by decide, place_failure_transactional demoPlatform1 2 2 demoFence (by decide)⟩

/-- Witness for C5: re-offering `HouseA` at the free, in-bounds target
`(6, 1)` still fails with the duplicate-id branch. -/
theorem place_duplicate_fails_witness :
    lookupObj demoPlatform1.objects demoHouse.id ≠ none ∧
    demoPlatform1.place_object 6 1 demoHouse =
      { err := some PlaceFailure.duplicateId, ret := false,
        platform := demoPlatform1, obj := demoHouse } :=
  ⟨by decide, place_duplicate_fails demoPlatform1 6 1 demoHouse (by decide)⟩

/-- Witness for C6: after placing `HouseA` and `TreeX`, lookup of
`HouseA`'s id returns the object of the first call (coordinates set to
`(1, 1)`), and lookup of the never-placed id `NonExist` returns `none`. -/
theorem get_object_instance_spec_witness :
    TilePlatform.init 10 5 = Except.ok demoPlatform ∧
    0 < demoReqs.length ∧
    ((runPlaces demoPlatform demoReqs).2.getD 0 resDefault).1 = none ∧
    (∀ j, j < demoReqs.length →
      ((runPlaces demoPlatform demoReqs).2.getD j resDefault).1 = none →
      (demoReqs.getD j reqDefault).2.2.id ≠ "NonExist") ∧
    (((runPlaces demoPlatform demoReqs).2.getD 0 resDefault).2 =
      { (demoReqs.getD 0 reqDefault).2.2 with
        x_coord := (demoReqs.getD 0 reqDefault).1,
        y_coord := (demoReqs.getD 0 reqDefault).2.1 } ∧
    (runPlaces demoPlatform demoReqs).1.get_object_instance
        ((demoReqs.getD 0 reqDefault).2.2.id) =
      some ((runPlaces demoPlatform demoReqs).2.getD 0 resDefault).2 ∧
    (runPlaces demoPlatform demoReqs).1.get_object_instance "NonExist" = none) :=
  ⟨rfl, by decide, by decide, by decide,
   get_object_instance_spec 10 5 demoPlatform rfl demoReqs 0 (by decide) (by decide)
     "NonExist" (by decide)⟩

/-- Witness for C7: after placing `HouseA` at `(1, 1)` and `TreeX` at
`(5, 1)`, their registered footprints do not share the cell offsets
`(0, 0)` of each. -/
theorem no_overlap_invariant_witness :
    TilePlatform.init 10 5 = Except.ok demoPlatform ∧
    lookupObj (runPlaces demoPlatform demoReqs).1.objects "HouseA" =
      some { id := "HouseA", width_tiles := 3, length_tiles := 2, x_coord := 1, y_coord := 1,
             shape_mask := [[1, 1, 1], [1, 1, 1]] } ∧
    lookupObj (runPlaces demoPlatform demoReqs).1.objects "TreeX" =
      some { id := "TreeX", width_tiles := 3, length_tiles := 3, x_coord := 5, y_coord := 1,
             shape_mask := [[1, 1, 1], [1, 1, 0], [1, 0, 0]] } ∧
    ("HouseA" : String) ≠ "TreeX" ∧
    (0 : Nat) < (3 : Int).toNat ∧ (0 : Nat) < (2 : Int).toNat ∧
    (0 : Nat) < (3 : Int).toNat ∧ (0 : Nat) < (3 : Int).toNat ∧
    ¬((1 : Int) + ((0 : Nat) : Int) = (5 : Int) + ((0 : Nat) : Int) ∧
      (1 : Int) + ((0 : Nat) : Int) = (1 : Int) + ((0 : Nat) : Int)) :=
  ⟨rfl, by decide, by decide, by decide, by decide, by decide, by decide, by decide,
   no_overlap_invariant 10 5 demoPlatform rfl demoReqs "HouseA" "TreeX"
     { id := "HouseA", width_tiles := 3, length_tiles := 2, x_coord := 1, y_coord := 1,
       shape_mask := [[1, 1, 1], [1, 1, 1]] }
     { id := "TreeX", width_tiles := 3, length_tiles := 3, x_coord := 5, y_coord := 1,
       shape_mask := [[1, 1, 1], [1, 1, 0], [1, 0, 0]] }
     (by decide) (by decide) (by decide) 0 0 0 0
     (by decide) (by decide) (by decide) (by decide)⟩

/-- Witness for C10: the out-of-bounds `Rock` placement at `(-1, 0)`
fails and hands back the object with its sentinel coordinates intact. -/
theorem place_failure_object_untouched_witness :
    (demoPlatform.place_object (-1) 0 demoRock).err ≠ none ∧
    ((demoPlatform.place_object (-1) 0 demoRock).obj = demoRock ∧
     (demoPlatform.place_object (-1) 0 demoRock).obj.x_coord = demoRock.x_coord ∧
     (demoPlatform.place_object (-1) 0 demoRock).obj.y_coord = demoRock.y_coord) :=
  ⟨by decide, place_failure_object_untouched demoPlatform (-1) 0 demoRock (by decide)⟩
